import Mathlib

/-
Verification of the deep-code catalog builder and Git publisher.

The definitions below are shallow embeddings of the Python sources under
`deep_code/`: pure functions become Lean functions, in-place mutation of
dictionaries and catalog objects becomes explicit state passing, fallible
steps return `Except`, and the outcome of each external call (GitHub HTTP
request, git subprocess) is supplied by an explicit environment value.
-/

namespace DeepCode

/- ===== Title cleaning (`DatasetPublisher.clean_title` and
   `DatasetPublisher.clean_catalog_titles`, deep_code/tools/publish.py) ===== -/

/-- Non-breaking space character `U+00A0`. -/
def nbspChar : Char := Char.ofNat 0xA0

/-- Degree sign character `U+00B0`. -/
def degreeChar : Char := Char.ofNat 0xB0

/-- The replacement string the source literally writes for the degree sign in
`DatasetPublisher.clean_title` (second `replace` call): the raw bytes of the
source file there are `0xC3 0x82 0xC2 0xB0`, the UTF-8 encoding of the two
characters `U+00C2` and `U+00B0`. -/
def degreeReplacement : List Char := [Char.ofNat 0xC2, Char.ofNat 0xB0]

/-- Embedding of `DatasetPublisher.clean_title` at character level: first
`title.replace(U+00A0, " ")`, then `title.replace(U+00B0, <degreeReplacement>)`.
Both patterns are single characters, so Python `str.replace` acts as a
per-character substitution; the second replacement maps one character to two. -/
def clean_title (s : List Char) : List Char :=
  ((s.map fun c => if c = nbspChar then ' ' else c).flatMap
    fun c => if c = degreeChar then degreeReplacement else [c])

/-- A catalog document tree as traversed by `DatasetPublisher.clean_catalog_titles`:
the title of the document when it is a string, the titles of its links, and the
subtrees obtained by loading the target of each `child` link that parses as a
catalog file. Titles are kept at character level because the cleaning operates
on characters. -/
inductive CTree where
  | node (title : Option (List Char)) (linkTitles : List (Option (List Char)))
      (children : List CTree) : CTree

mutual

/-- Embedding of `DatasetPublisher.clean_catalog_titles`: cleans the title of the
catalog itself, the title of every link, and recurses into every child catalog
that loads. In the source the child catalogs are freshly loaded objects that
are mutated by the recursive call; the embedding returns the cleaned tree. -/
def clean_catalog_titles : CTree → CTree
  | .node t lts cs =>
      .node (t.map clean_title) (lts.map (Option.map clean_title)) (clean_children cs)

/-- Recursive cleaning of the loaded child catalogs. -/
def clean_children : List CTree → List CTree
  | [] => []
  | c :: cs => clean_catalog_titles c :: clean_children cs

end

mutual

/-- All titles present in a catalog tree, in traversal order. -/
def tree_titles : CTree → List (List Char)
  | .node t lts cs => t.toList ++ lts.reduceOption ++ children_titles cs

/-- All titles present in a list of catalog trees. -/
def children_titles : List CTree → List (List Char)
  | [] => []
  | c :: cs => tree_titles c ++ children_titles cs

end

/- ===== Self hrefs of the generated records ===== -/

/-- Embedding of the `self` href set by
`OSCDatasetSTACGenerator.build_dataset_stac_collection`
(deep_code/utils/dataset_stac_generator.py): the source assigns a literal URL
naming `products/deepesdl/collection.json`, so the value does not depend on the
collection id of the generator; the argument is ignored exactly as in the
source. -/
def dataset_collection_self_href (_collection_id : String) : String :=
  "https://esa-earthcode.github.io/open-science-catalog-metadata/products/deepesdl/collection.json"

/-- Embedding of the `self` href computed by
`OSCDatasetSTACGenerator.build_variable_catalog` and
`OSCDatasetSTACGenerator.update_existing_variable_catalog` from the variable id. -/
def variable_catalog_self_href (var_id : String) : String :=
  "https://esa-earthcode.github.io/open-science-catalog-metadata/variables/"
    ++ var_id ++ "/catalog.json"

/-- Modelled from the spec: the constant `BASE_URL_OSC` imported by
`deep_code/utils/ogc_api_record.py` from `deep_code/constants.py` is not present
in this snapshot of `constants.py`; per the spec all self links are absolute
canonical URLs of the catalog, so the base URL is the catalog host root. -/
def BASE_URL_OSC : String :=
  "https://esa-earthcode.github.io/open-science-catalog-metadata"

/-- Embedding of the `self` href in `WorkflowAsOgcRecord._generate_static_links`
(deep_code/utils/ogc_api_record.py). -/
def workflow_record_self_href (id : String) : String :=
  BASE_URL_OSC ++ "/workflows/" ++ id ++ "/record.json"

/-- Embedding of the `self` href in `ExperimentAsOgcRecord._generate_static_links`
(deep_code/utils/ogc_api_record.py). -/
def experiment_record_self_href (id : String) : String :=
  BASE_URL_OSC ++ "/experiments/" ++ id ++ "/record.json"

/- ===== Spatial extent extraction
   (`OSCDatasetSTACGenerator._get_spatial_extent`) ===== -/

/-- An opened dataset as far as spatial-extent extraction is concerned: the
named coordinate arrays. Coordinate values are modelled as rationals. -/
structure XrDataset where
  coords : List (String × List Rat)

/-- Access a coordinate array by name, when present. -/
def dsCoord (ds : XrDataset) (name : String) : Option (List Rat) :=
  ds.coords.lookup name

/-- Embedding of the set-inclusion test, for example
`set(["lon", "lat"]).issubset(self.dataset.coords)`. -/
def hasPair (ds : XrDataset) (a b : String) : Bool :=
  (dsCoord ds a).isSome && (dsCoord ds b).isSome

/-- The values of a coordinate; only read after `hasPair` has established
presence, mirroring the attribute access in the source. -/
def coordVals (ds : XrDataset) (name : String) : List Rat :=
  (dsCoord ds name).getD []

/-- Minimum of a coordinate array, as computed by `float(arr.min())`. -/
def listMin : List Rat → Rat
  | [] => 0
  | x :: xs => xs.foldl min x

/-- Maximum of a coordinate array, as computed by `float(arr.max())`. -/
def listMax : List Rat → Rat
  | [] => 0
  | x :: xs => xs.foldl max x

/-- The bounding box `[min a, min b, max a, max b]` built by the source for a
coordinate pair `(a, b)` = (longitudes, latitudes). -/
def bboxOf (av bv : List Rat) : List Rat :=
  [listMin av, listMin bv, listMax av, listMax bv]

/-- Embedding of `OSCDatasetSTACGenerator._get_spatial_extent`: try the pair
`(lon, lat)`, then `(longitude, latitude)`, then `(x, y)`, in that order, and
raise `ValueError` when none of the pairs is present. The spatial extent is the
singleton list of one bounding box, as in `SpatialExtent([[...]])`. -/
def get_spatial_extent (ds : XrDataset) : Except String (List (List Rat)) :=
  if hasPair ds "lon" "lat" then
    .ok [bboxOf (coordVals ds "lon") (coordVals ds "lat")]
  else if hasPair ds "longitude" "latitude" then
    .ok [bboxOf (coordVals ds "longitude") (coordVals ds "latitude")]
  else if hasPair ds "x" "y" then
    .ok [bboxOf (coordVals ds "x") (coordVals ds "y")]
  else
    .error "Dataset does not have recognized spatial coordinates"

/- ===== Variable metadata extraction
   (`OSCDatasetSTACGenerator.extract_metadata_for_variable`,
   `get_variables_metadata`, `get_variable_ids`, `_normalize_name`) ===== -/

/-- A data variable of the opened dataset: its raw key in `data_vars` and the
attributes the extractor reads. -/
structure XVariable where
  name : String
  long_name : Option String
  standard_name : Option String
  vdescription : Option String
  gcmd_keyword_url : Option String
deriving DecidableEq

/-- Character-level embedding of `name.replace(" ", "-").lower()` as computed by
`OSCDatasetSTACGenerator._normalize_name`. -/
def normalize_chars (s : List Char) : List Char :=
  (s.map fun c => if c = ' ' then '-' else c).map Char.toLower

/-- Embedding of `OSCDatasetSTACGenerator._normalize_name`: Python evaluates
`name.replace(" ", "-").lower() if name else None`, so both `None` and the empty
string (falsy) yield `None`. -/
def normalize_name : Option String → Option String
  | none => none
  | some s => if s = "" then none else some (String.mk (normalize_chars s.data))

/-- Python `a or b` where `a` is an optional string attribute and `b` a string:
returns `b` when `a` is `None` or the empty string (falsy), else the value of
`a`. -/
def pyStrOr (a : Option String) (b : String) : String :=
  match a with
  | none => b
  | some s => if s = "" then b else s

/-- The title chosen by `extract_metadata_for_variable`:
`long_name or standard_name or variable_data.name`. -/
def varTitle (v : XVariable) : String :=
  pyStrOr v.long_name (pyStrOr v.standard_name v.name)

/-- The metadata dictionary built per variable. -/
structure VarMetadata where
  variable_id : Option String
  vdescription : String
  gcmd_keyword_url : Option String
deriving DecidableEq

/-- Embedding of `OSCDatasetSTACGenerator.extract_metadata_for_variable`. -/
def extract_metadata_for_variable (v : XVariable) : VarMetadata :=
  { variable_id := normalize_name (some (varTitle v))
    vdescription := v.vdescription.getD "No variable description"
    gcmd_keyword_url := v.gcmd_keyword_url }

/-- Python dict assignment `d[k] = v` on an association list: overwrite the
entry when the key exists (keeping its position), otherwise append. -/
def dictInsertVM :
    List (Option String × VarMetadata) → Option String → VarMetadata →
      List (Option String × VarMetadata)
  | [], k, v => [(k, v)]
  | (k0, v0) :: rest, k, v =>
      if k0 = k then (k, v) :: rest else (k0, v0) :: dictInsertVM rest k v

/-- Embedding of `OSCDatasetSTACGenerator.get_variables_metadata`: one dict
entry per data variable, keyed by the normalized variable id, inserted in
iteration order. -/
def get_variables_metadata (vars : List XVariable) :
    List (Option String × VarMetadata) :=
  vars.foldl
    (fun d v =>
      let m := extract_metadata_for_variable v
      dictInsertVM d m.variable_id m)
    []

/-- Embedding of `OSCDatasetSTACGenerator.get_variable_ids`: the keys of the
variables-metadata dict. -/
def get_variable_ids (vars : List XVariable) : List (Option String) :=
  (get_variables_metadata vars).map Prod.fst

/-- The claim side of the variable-id derivation, following the words of the
spec: prefer `long_name` when present, then `standard_name`, then the raw
variable key. Declared for comparison against the source embedding. -/
def claimed_title_choice (v : XVariable) : String :=
  match v.long_name with
  | some s => s
  | none =>
    match v.standard_name with
    | some s => s
    | none => v.name

/- ===== Variable catalog update
   (`OSCDatasetSTACGenerator.update_existing_variable_catalog`) ===== -/

/-- A pystac link: relation, target href, media type and title. -/
structure SLink where
  rel : String
  target : String
  media_type : Option String
  title : Option String
deriving DecidableEq

/-- The fields of a pystac catalog document that the variable-catalog update
reads or writes: the links and the `updated` extra field. -/
structure SCatalog where
  id : String
  description : String
  links : List SLink
  updated : Option String
deriving DecidableEq

/-- The relative path of the collection document of a product, as used for the
`child` link target: `../../products/<collection_id>/collection.json`. -/
def product_collection_path (collection_id : String) : String :=
  "../../products/" ++ collection_id ++ "/collection.json"

/-- The `child` link added to a variable catalog, pointing at the product
collection. -/
def product_child_link (collection_id : String) : SLink :=
  { rel := "child"
    target := product_collection_path collection_id
    media_type := some "application/json"
    title := some collection_id }

/-- The `self` link of a catalog. -/
def self_link (href : String) : SLink :=
  { rel := "self", target := href, media_type := some "application/json", title := none }

/-- pystac `set_self_href`: remove any existing `self` link and append a fresh
one with the given href. -/
def set_self_href (c : SCatalog) (href : String) : SCatalog :=
  { c with links := (c.links.filter fun l => l.rel != "self") ++ [self_link href] }

/-- Embedding of `OSCDatasetSTACGenerator.update_existing_variable_catalog`:
refresh the `updated` timestamp, unconditionally `add_link` a `child` link to
the product collection of the generator, and rewrite the `self` href. -/
def update_existing_variable_catalog (existing : SCatalog)
    (collection_id var_id now_iso : String) : SCatalog :=
  set_self_href
    { existing with
        updated := some now_iso
        links := existing.links ++ [product_child_link collection_id] }
    (variable_catalog_self_href var_id)

/-- Number of `child` links of a catalog whose target is `t`. -/
def child_link_count (c : SCatalog) (t : String) : Nat :=
  c.links.countP fun l => l.rel == "child" && l.target == t

/- ===== Workflow record properties
   (`OSCWorkflowOGCApiRecordGenerator.build_record_properties`,
   deep_code/utils/ogc_record_generator.py) ===== -/

/-- Modelled from the spec: the constant `OSC_THEME_SCHEME` imported by
`deep_code/utils/ogc_record_generator.py` from `deep_code/constants.py` is not
present in this snapshot of `constants.py`; the spec fixes it as the
controlled-vocabulary scheme URI bound to the theme concepts, the same scheme
the dataset generator writes literally. -/
def OSC_THEME_SCHEME : String := "https://github.com/stac-extensions/osc#theme"

/-- A theme concept holding one theme tag. -/
structure ThemeConcept where
  id : String
deriving DecidableEq

/-- A theme object binding a scheme URI to a list of concepts. -/
structure Theme where
  concepts : List ThemeConcept
  scheme : String
deriving DecidableEq

/-- Embedding of `OSCWorkflowOGCApiRecordGenerator.build_theme`. -/
def build_theme (osc_themes : List String) : Theme :=
  { concepts := osc_themes.map fun t => ⟨t⟩, scheme := OSC_THEME_SCHEME }

/-- A contact mapping as given in the workflow config; its internal fields are
irrelevant to the claims considered here, so the payload is kept opaque. -/
structure ContactDict where
  payload : String
deriving DecidableEq

/-- A parsed `Contact` object, as produced by `Contact.from_value`. -/
structure Contact where
  source : ContactDict
deriving DecidableEq

/-- Embedding of `OSCWorkflowOGCApiRecordGenerator.build_contact_objects`: one
`Contact` per contact dictionary. -/
def build_contact_objects (contacts_list : List ContactDict) : List Contact :=
  contacts_list.map fun c => ⟨c⟩

/-- A Python value stored in the properties mapping. -/
inductive PVal where
  | str (s : String)
  | tags (l : List String)
  | themeObjs (ts : List Theme)
  | contactObjs (cs : List Contact)
  | intVal (n : Int)
deriving DecidableEq

/-- The properties mapping: an association list with Python dict semantics. -/
abbrev PyDict := List (String × PVal)

/-- Python `d.get(k)` / `d[k]`: the value under the first matching key. -/
def pyLookup : PyDict → String → Option PVal
  | [], _ => none
  | (k, v) :: rest, key => if k = key then some v else pyLookup rest key

/-- Python `d.update(\x7bk: v\x7d)`: overwrite the entry in place when the key
exists, otherwise append it. -/
def pyUpdate : PyDict → String → PVal → PyDict
  | [], key, v => [(key, v)]
  | (k, w) :: rest, key, v =>
      if k = key then (key, v) :: rest else (k, w) :: pyUpdate rest key v

/-- Python `d.setdefault(k, v)`: insert `v` under `k` only when the key is
absent. -/
def pySetdefault (d : PyDict) (key : String) (v : PVal) : PyDict :=
  match pyLookup d key with
  | some _ => d
  | none => d ++ [(key, v)]

/-- The raw theme tag list read by `properties.get("themes", [])`; in every
caller the value stored under `themes` is the tag list coming from the YAML
config, so any other shape of value reads as the empty default. -/
def theme_tags (d : PyDict) : List String :=
  match pyLookup d "themes" with
  | some (.tags l) => l
  | _ => []

/-- Embedding of `OSCWorkflowOGCApiRecordGenerator.build_record_properties`
restricted to its effect on the `properties` mapping passed by the caller: the
source mutates the dictionary in place (`update`, `setdefault`); the embedding
returns the mutated dictionary. The trailing `RecordProperties.from_value` call
reads but does not mutate it. -/
def build_record_properties (properties : PyDict) (contacts : List ContactDict)
    (now_iso : String) : PyDict :=
  let d1 := pyUpdate properties "created" (.str now_iso)
  let d2 := pyUpdate d1 "updated" (.str now_iso)
  let themes_list := theme_tags d2
  let d3 := pyUpdate d2 "contacts" (.contactObjs (build_contact_objects contacts))
  let d4 :=
    if themes_list.isEmpty then d3
    else pyUpdate d3 "themes" (.themeObjs [build_theme themes_list])
  let d5 := pySetdefault d4 "type" (.str "workflow")
  pySetdefault d5 "osc_project" (.str "deep-earth-system-data-lab")

/- ===== The transactional Git publisher
   (`GitHubPublisher`, `WorkflowPublisher`, deep_code/tools/publish.py, and
   `GitHubAutomation`, deep_code/utils/github_automation.py) ===== -/

/-- Outcome environment for one publish run: whether each GitHub HTTP call and
git subprocess succeeds, and the `html_url` field of the response to
`POST /pulls` when that request succeeds. -/
structure GitHubEnv where
  forkOk : Bool
  cloneOk : Bool
  branchOk : Bool
  addOk : Bool
  commitOk : Bool
  pushOk : Bool
  prHtmlUrl : Option String
deriving DecidableEq

/-- Errors raised by the publisher: a failed HTTP request
(`response.raise_for_status`), a failed git subprocess
(`subprocess.run(..., check=True)`), or an explicit `ValueError`. -/
inductive PubError where
  | requestError (step : String)
  | processError (step : String)
  | valueError (msg : String)
deriving DecidableEq

/-- Local filesystem state tracked by the embedding: whether the local clone
directory exists, whether the process working directory is inside it, and the
relative paths written into it. -/
structure LocalState where
  cloneOnDisk : Bool
  cwdInClone : Bool
  filesWritten : List String
deriving DecidableEq

/-- Embedding of `GitHubAutomation.clean_up`: `os.chdir("..")` followed by
`subprocess.run(["rm", "-rf", local_clone_dir])`; the removal is run without
`check=True`, so the method never raises and the clone directory is gone
afterwards. -/
def clean_up (_s : LocalState) : LocalState :=
  { cloneOnDisk := false, cwdInClone := false, filesWritten := [] }

/-- Embedding of `GitHubAutomation.create_branch`: `git checkout -b`. -/
def create_branch (env : GitHubEnv) : Except PubError Unit :=
  if env.branchOk then .ok () else .error (.processError "git checkout -b")

/-- Embedding of the `add_file` loop of `publish_files`: each file is written
under the clone directory and staged with `git add`. -/
def add_files (env : GitHubEnv) (s : LocalState) (files : List String) :
    Except PubError LocalState :=
  if env.addOk then .ok { s with filesWritten := s.filesWritten ++ files }
  else .error (.processError "git add")

/-- Embedding of `GitHubAutomation.commit_and_push`: `git commit -m` then
`git push -u origin <branch>`. -/
def commit_and_push (env : GitHubEnv) : Except PubError Unit :=
  if env.commitOk then
    if env.pushOk then .ok () else .error (.processError "git push")
  else .error (.processError "git commit")

/-- Embedding of `GitHubAutomation.create_pull_request`: posts to
`/repos/<owner>/<repo>/pulls`, raises on an error response, reads `html_url`
out of the response JSON, prints it — and then falls off the end of the method
body, so the value of the call is the Python `None`, modelled as
`(none : Option String)`. The `html_url` that was printed is recorded in the
environment, not returned. -/
def create_pull_request (env : GitHubEnv) : Except PubError (Option String) :=
  match env.prHtmlUrl with
  | none => .error (.requestError "create_pull_request")
  | some _ => .ok none

/-- The `try` block of `GitHubPublisher.publish_files`: create the branch, write
and stage every file, commit and push, open the pull request. Returns the local
state reached together with the raised error or the returned value. -/
def publish_files_try (env : GitHubEnv) (s : LocalState) (files : List String) :
    LocalState × Except PubError (Option String) :=
  match create_branch env with
  | .error e => (s, .error e)
  | .ok () =>
    match add_files env s files with
    | .error e => (s, .error e)
    | .ok s1 =>
      match commit_and_push env with
      | .error e => (s1, .error e)
      | .ok () =>
        match create_pull_request env with
        | .error e => (s1, .error e)
        | .ok r => (s1, .ok r)

/-- Embedding of `GitHubPublisher.publish_files`: the `try` block above with the
`finally` clause `self.github_automation.clean_up()` applied on every exit
path, normal return and exception alike. -/
def publish_files (env : GitHubEnv) (s : LocalState) (files : List String) :
    LocalState × Except PubError (Option String) :=
  let r := publish_files_try env s files
  (clean_up r.1, r.2)

/-- The git and GitHub calls the publisher makes, in order of attempt. -/
inductive GitCall where
  | forkCall
  | cloneCall
  | branchCall
  | addCall
  | commitCall
  | pushCall
  | pullRequestCall
deriving DecidableEq

/-- The calls attempted by `publish_files`, in order, stopping at the first
failing step. -/
def publish_files_calls (env : GitHubEnv) : List GitCall :=
  [.branchCall] ++
    if env.branchOk then
      [.addCall] ++
        if env.addOk then
          [.commitCall] ++
            if env.commitOk then
              [.pushCall] ++ if env.pushOk then [.pullRequestCall] else []
            else []
        else []
    else []

/-- The relative path of a workflow record. -/
def workflow_record_path (id : String) : String :=
  "workflow/" ++ id ++ "/record.json"

/-- The relative path of an experiment record. -/
def experiment_record_path (id : String) : String :=
  "experiments/" ++ id ++ "/record.json"

/-- The workflow YAML config fields read by
`WorkflowPublisher.publish_workflow_experiment`. -/
structure WorkflowConfig where
  workflow_id : Option String
  properties : PyDict
  contacts : List ContactDict
  jupyter_notebook_url : Option String

/-- A full workflow-publish invocation. `WorkflowPublisher.__init__` constructs
a `GitHubPublisher`, whose `__init__` reads the credentials and immediately
calls `fork_repository` and `clone_repository`; then
`publish_workflow_experiment` parses the config, raising `ValueError` when the
normalized `workflow_id` is falsy, and otherwise builds the workflow and
experiment records and hands both files to `publish_files`. Returns the list of
git and GitHub calls attempted, in order, together with the outcome. -/
def workflow_publish_run (env : GitHubEnv) (cfg : WorkflowConfig) :
    List GitCall × Except PubError Unit :=
  if env.forkOk = false then
    ([.forkCall], .error (.requestError "fork_repository"))
  else if env.cloneOk = false then
    ([.forkCall, .cloneCall], .error (.processError "git clone"))
  else
    match normalize_name cfg.workflow_id with
    | none =>
        ([.forkCall, .cloneCall],
          .error (.valueError "workflow_id is missing in workflow config."))
    | some workflow_id =>
        ([.forkCall, .cloneCall] ++ publish_files_calls env,
          match
            (publish_files env
              { cloneOnDisk := true, cwdInClone := true, filesWritten := [] }
              [workflow_record_path workflow_id,
                experiment_record_path workflow_id]).2
          with
          | .error e => .error e
          | .ok _ => .ok ())

/- ===================== Theorems ===================== -/

/-- Filtering out `self` links does not change the count of `child` links,
because a link has a single `rel`. -/
theorem countP_filter_not_self (ls : List SLink) (t : String) :
    ((ls.filter fun l => l.rel != "self").countP
        fun l => l.rel == "child" && l.target == t)
      = ls.countP fun l => l.rel == "child" && l.target == t := by
  induction ls with
  | nil => rfl
  | cons a ls ih =>
      rw [List.filter_cons]
      by_cases hs : a.rel = "self"
      · have h2 : (a.rel == "child" && a.target == t) = false := by
          simp [hs]
        simp [hs, List.countP_cons, h2, ih]
      · simp [hs, List.countP_cons, ih]

/-- C1: the claim says `publish_files` returns the URL of the opened pull
request on a fully successful run. The code disagrees:
`GitHubAutomation.create_pull_request` prints the `html_url` of the response
but has no return statement, so `publish_files` returns the Python `None`. For
every environment in which branch creation, file staging, commit, push and the
pull-request POST all succeed with `html_url = url`, the returned value is
`none`, never `some url`. -/
theorem publish_files_success_returns_none (env : GitHubEnv) (s : LocalState)
    (files : List String) (url : String)
    (hb : env.branchOk = true) (ha : env.addOk = true) (hc : env.commitOk = true)
    (hp : env.pushOk = true) (hpr : env.prHtmlUrl = some url) :
    (publish_files env s files).2 = .ok none ∧
      (publish_files env s files).2 ≠ .ok (some url) := by
  have h2 : (publish_files env s files).2 = .ok none := by
    simp [publish_files, publish_files_try, create_branch, add_files,
      commit_and_push, create_pull_request, hb, ha, hc, hp, hpr]
  exact ⟨h2, by rw [h2]; simp⟩

/-- C1 witness: a concrete fully successful run returns `none`, not the pull
request URL recorded by GitHub. -/
theorem publish_files_success_returns_none_witness :
    (publish_files
        { forkOk := true, cloneOk := true, branchOk := true, addOk := true,
          commitOk := true, pushOk := true,
          prHtmlUrl := some "https://github.com/pulls/1" }
        { cloneOnDisk := true, cwdInClone := true, filesWritten := [] }
        ["products/hydrology/collection.json"]).2 = .ok none ∧
      (publish_files
        { forkOk := true, cloneOk := true, branchOk := true, addOk := true,
          commitOk := true, pushOk := true,
          prHtmlUrl := some "https://github.com/pulls/1" }
        { cloneOnDisk := true, cwdInClone := true, filesWritten := [] }
        ["products/hydrology/collection.json"]).2
        ≠ .ok (some "https://github.com/pulls/1") :=
  publish_files_success_returns_none _ _ _ "https://github.com/pulls/1"
    rfl rfl rfl rfl rfl

/-- C2: whatever the outcome of the steps of `publish_files` (normal return or
an exception raised by any step), the `finally` clause runs
`GitHubAutomation.clean_up`, so on return the local clone directory is gone and
the working directory is no longer inside it. The environment ranges over every
combination of step outcomes, so no failure class leaves the clone on disk. -/
theorem publish_files_always_removes_clone (env : GitHubEnv) (s : LocalState)
    (files : List String) :
    (publish_files env s files).1.cloneOnDisk = false ∧
      (publish_files env s files).1.cwdInClone = false ∧
      (publish_files env s files).1.filesWritten = [] :=
  ⟨rfl, rfl, rfl⟩

/-- C3 counterexample: a variable catalog that already holds a `child` link to
`../../products/hydrology/collection.json` gains a second identical-target
`child` link when updated for the same dataset again, so the update is not
idempotent as the claim states. -/
theorem update_existing_variable_catalog_duplicates_child :
    child_link_count
        { id := "soil-moisture", description := "d",
          links := [{ rel := "child",
                      target := "../../products/hydrology/collection.json",
                      media_type := some "application/json",
                      title := some "hydrology" }],
          updated := none }
        (product_collection_path "hydrology") = 1 ∧
      child_link_count
        (update_existing_variable_catalog
          { id := "soil-moisture", description := "d",
            links := [{ rel := "child",
                        target := "../../products/hydrology/collection.json",
                        media_type := some "application/json",
                        title := some "hydrology" }],
            updated := none }
          "hydrology" "soil-moisture" "2025-01-01T00:00:00+00:00")
        (product_collection_path "hydrology") = 2 :=
  ⟨rfl, rfl⟩

/-- C3 (amended): `update_existing_variable_catalog` appends a `child` link to
the collection path of the dataset unconditionally, with no duplicate check:
for every existing catalog the number of `child` links pointing at that
collection path grows by exactly one, so a catalog that already lists the
dataset ends up with a duplicate entry. -/
theorem update_existing_variable_catalog_appends_child (c : SCatalog)
    (cid vid now : String) :
    child_link_count (update_existing_variable_catalog c cid vid now)
        (product_collection_path cid)
      = child_link_count c (product_collection_path cid) + 1 := by
  unfold child_link_count update_existing_variable_catalog set_self_href
  rw [List.countP_append, countP_filter_not_self, List.countP_append]
  simp [product_child_link, self_link, List.countP_cons]

/-- C4 counterexample: with `workflow_id` absent from the config, a workflow
publish invocation does raise `ValueError`, but only after the publisher
constructor has already called `fork_repository` and `clone_repository`: the
list of git calls made before the raise is not empty, contradicting the claim
that the error comes before any Git call. -/
theorem workflow_publish_missing_id_counterexample :
    (workflow_publish_run
        { forkOk := true, cloneOk := true, branchOk := true, addOk := true,
          commitOk := true, pushOk := true, prHtmlUrl := some "u" }
        { workflow_id := none, properties := [], contacts := [],
          jupyter_notebook_url := none }).2
      = .error (.valueError "workflow_id is missing in workflow config.") ∧
    (workflow_publish_run
        { forkOk := true, cloneOk := true, branchOk := true, addOk := true,
          commitOk := true, pushOk := true, prHtmlUrl := some "u" }
        { workflow_id := none, properties := [], contacts := [],
          jupyter_notebook_url := none }).1
      = [.forkCall, .cloneCall] ∧
    [GitCall.forkCall, GitCall.cloneCall] ≠ ([] : List GitCall) :=
  ⟨rfl, rfl, by simp⟩

/-- C4 (amended): for every workflow config without `workflow_id` and every
environment in which the construction-time fork and clone succeed, the publish
invocation raises `ValueError` before any further git or GitHub call: the
calls made are exactly the fork and the clone performed by
`GitHubPublisher.__init__`, and no branch, add, commit, push or pull-request
call occurs. -/
theorem workflow_publish_missing_id_stops_after_clone (env : GitHubEnv)
    (cfg : WorkflowConfig) (hf : env.forkOk = true) (hc : env.cloneOk = true)
    (hid : cfg.workflow_id = none) :
    (workflow_publish_run env cfg).2
        = .error (.valueError "workflow_id is missing in workflow config.") ∧
      (workflow_publish_run env cfg).1 = [.forkCall, .cloneCall] ∧
      GitCall.branchCall ∉ (workflow_publish_run env cfg).1 ∧
      GitCall.commitCall ∉ (workflow_publish_run env cfg).1 ∧
      GitCall.pushCall ∉ (workflow_publish_run env cfg).1 ∧
      GitCall.pullRequestCall ∉ (workflow_publish_run env cfg).1 := by
  have hrun : workflow_publish_run env cfg
      = ([.forkCall, .cloneCall],
          .error (.valueError "workflow_id is missing in workflow config.")) := by
    simp [workflow_publish_run, hf, hc, hid, normalize_name]
  rw [hrun]
  refine ⟨rfl, rfl, ?_, ?_, ?_, ?_⟩ <;> decide

/-- C4 witness: a concrete config without `workflow_id` stops after the fork
and clone of the constructor. -/
theorem workflow_publish_missing_id_stops_after_clone_witness :
    (workflow_publish_run
        { forkOk := true, cloneOk := true, branchOk := false, addOk := false,
          commitOk := false, pushOk := false, prHtmlUrl := none }
        { workflow_id := none, properties := [("title", PVal.str "t")],
          contacts := [], jupyter_notebook_url := none }).1
      = [GitCall.forkCall, GitCall.cloneCall] :=
  (workflow_publish_missing_id_stops_after_clone _ _ rfl rfl rfl).2.1

/-- C5: the claim says every self link is derived deterministically from the
record id, so records with different ids have different self links. For dataset
collections the code instead assigns a fixed URL naming
`products/deepesdl/collection.json`: two collections with different ids receive
the same self href, which moreover is not the path
`products/<collection_id>/collection.json` the publisher writes the file to. -/
theorem dataset_collection_self_href_ignores_id :
    dataset_collection_self_href "hydrology" = dataset_collection_self_href "ocean" ∧
      ("hydrology" : String) ≠ "ocean" ∧
      dataset_collection_self_href "hydrology"
        = "https://esa-earthcode.github.io/open-science-catalog-metadata/products/deepesdl/collection.json" :=
  ⟨rfl, by decide, rfl⟩

/-- Cleaning the optional title of a document commutes with `Option.toList`. -/
theorem option_toList_clean (o : Option (List Char)) :
    (o.map clean_title).toList = o.toList.map clean_title := by
  cases o <;> rfl

/-- Cleaning the optional titles of the links commutes with `reduceOption`. -/
theorem reduceOption_map_clean (l : List (Option (List Char))) :
    (l.map (Option.map clean_title)).reduceOption
      = l.reduceOption.map clean_title := by
  induction l with
  | nil => rfl
  | cons a l ih => cases a <;> simp [List.reduceOption_cons_of_some, ih]

mutual

/-- Every title reachable in the cleaned tree is the cleaning of the
corresponding original title. -/
theorem tree_titles_clean :
    ∀ t : CTree,
      tree_titles (clean_catalog_titles t) = (tree_titles t).map clean_title
  | .node t lts cs => by
      simp only [clean_catalog_titles, tree_titles, children_titles_clean cs,
        option_toList_clean, reduceOption_map_clean, List.map_append]

/-- Every title reachable in a cleaned forest is the cleaning of the
corresponding original title. -/
theorem children_titles_clean :
    ∀ l : List CTree,
      children_titles (clean_children l) = (children_titles l).map clean_title
  | [] => rfl
  | c :: cs => by
      simp only [clean_children, children_titles, tree_titles_clean c,
        children_titles_clean cs, List.map_append]

end

/-- The cleaned title never contains a non-breaking space. -/
theorem nbsp_not_mem_clean_title (s : List Char) : nbspChar ∉ clean_title s := by
  intro hmem
  unfold clean_title at hmem
  obtain ⟨c, hc, hin⟩ := List.mem_flatMap.mp hmem
  obtain ⟨c0, _hc0, hcc⟩ := List.mem_map.mp hc
  by_cases hdc : c = degreeChar
  · rw [if_pos hdc] at hin
    exact absurd hin (by decide)
  · rw [if_neg hdc] at hin
    have hceq : nbspChar = c := List.mem_singleton.mp hin
    by_cases h0 : c0 = nbspChar
    · rw [if_pos h0] at hcc
      rw [← hcc] at hceq
      exact absurd hceq (by decide)
    · rw [if_neg h0] at hcc
      rw [← hcc] at hceq
      exact h0 hceq.symm

/-- C6 counterexample: the degree sign is not replaced by an ASCII-safe
equivalent: `clean_title` maps it to the two characters `U+00C2 U+00B0`, both
outside the ASCII range. -/
theorem clean_title_degree_not_ascii :
    clean_title [degreeChar] = degreeReplacement ∧
      ¬(∀ c ∈ clean_title [degreeChar], c.toNat < 128) := by
  exact ⟨by decide, by decide⟩

/-- C6 (amended): the cleaning replaces the non-breaking space by an ASCII
space and the degree sign by the two-character sequence `U+00C2 U+00B0` (not
ASCII), and it is applied to the title of the catalog, to the title of every
link, and recursively to every title reachable through loaded `child`
catalogs: the titles of the cleaned tree are exactly the cleaned titles of the
original tree, and no cleaned title contains a non-breaking space. -/
theorem clean_catalog_titles_recursive_spec (tr : CTree) (s : List Char) :
    tree_titles (clean_catalog_titles tr) = (tree_titles tr).map clean_title ∧
      nbspChar ∉ clean_title s ∧
      clean_title [nbspChar] = [' '] :=
  ⟨tree_titles_clean tr, nbsp_not_mem_clean_title s, by decide⟩

/-- C7: spatial-extent extraction checks the `(lon, lat)` pair first, then
`(longitude, latitude)`, then `(x, y)`, using the first pair present, and
raises an extraction error when none of the three pairs is present. -/
theorem get_spatial_extent_priority (ds : XrDataset) :
    (∀ lonv latv, dsCoord ds "lon" = some lonv → dsCoord ds "lat" = some latv →
        get_spatial_extent ds = .ok [bboxOf lonv latv]) ∧
      ((dsCoord ds "lon" = none ∨ dsCoord ds "lat" = none) →
        ∀ lonv latv, dsCoord ds "longitude" = some lonv →
          dsCoord ds "latitude" = some latv →
          get_spatial_extent ds = .ok [bboxOf lonv latv]) ∧
      ((dsCoord ds "lon" = none ∨ dsCoord ds "lat" = none) →
        (dsCoord ds "longitude" = none ∨ dsCoord ds "latitude" = none) →
        ∀ xv yv, dsCoord ds "x" = some xv → dsCoord ds "y" = some yv →
          get_spatial_extent ds = .ok [bboxOf xv yv]) ∧
      ((dsCoord ds "lon" = none ∨ dsCoord ds "lat" = none) →
        (dsCoord ds "longitude" = none ∨ dsCoord ds "latitude" = none) →
        (dsCoord ds "x" = none ∨ dsCoord ds "y" = none) →
        get_spatial_extent ds
          = .error "Dataset does not have recognized spatial coordinates") := by
  refine ⟨?_, ?_, ?_, ?_⟩
  · intro lonv latv hlon hlat
    simp [get_spatial_extent, hasPair, coordVals, hlon, hlat]
  · rintro (h | h) lonv latv hlon hlat <;>
      simp [get_spatial_extent, hasPair, coordVals, h, hlon, hlat]
  · rintro (h1 | h1) (h2 | h2) xv yv hx hy <;>
      simp [get_spatial_extent, hasPair, coordVals, h1, h2, hx, hy]
  · rintro (h1 | h1) (h2 | h2) (h3 | h3) <;>
      simp [get_spatial_extent, hasPair, h1, h2, h3]

/-- C7 witness: a dataset with `lon` in `[-180, 180]` and `lat` in `[-90, 90]`
yields the bounding box `[-180, -90, 180, 90]`. -/
theorem get_spatial_extent_priority_witness :
    get_spatial_extent { coords := [("lon", [-180, 180]), ("lat", [-90, 90])] }
      = .ok [[-180, -90, 180, 90]] := by
  have h := (get_spatial_extent_priority
      { coords := [("lon", [-180, 180]), ("lat", [-90, 90])] }).1
      [-180, 180] [-90, 90] rfl rfl
  have hb : bboxOf [-180, 180] [-90, 90] = ([-180, -90, 180, 90] : List Rat) := by
    decide
  rw [h, hb]

/-- C8: for every data variable whose descriptive attributes are not the empty
string, the derived variable id is the normalization (spaces to hyphens, then
lower-case) of `long_name` when present, else `standard_name` when present,
else the raw variable key, where `claimed_title_choice` spells out exactly that
preference chain in the words of the spec. -/
theorem variable_id_matches_claim (v : XVariable)
    (h1 : v.long_name ≠ some "") (h2 : v.standard_name ≠ some "")
    (h3 : v.name ≠ "") :
    (extract_metadata_for_variable v).variable_id
      = some (String.mk (normalize_chars (claimed_title_choice v).data)) := by
  cases hl : v.long_name with
  | some s =>
      have hs : s ≠ "" := by
        intro h
        rw [h] at hl
        exact h1 hl
      simp [extract_metadata_for_variable, varTitle, pyStrOr,
        claimed_title_choice, normalize_name, hl, hs]
  | none =>
      cases hst : v.standard_name with
      | some s =>
          have hs : s ≠ "" := by
            intro h
            rw [h] at hst
            exact h2 hst
          simp [extract_metadata_for_variable, varTitle, pyStrOr,
            claimed_title_choice, normalize_name, hl, hst, hs]
      | none =>
          simp [extract_metadata_for_variable, varTitle, pyStrOr,
            claimed_title_choice, normalize_name, hl, hst, h3]

/-- C8 witness: a variable with `long_name` Soil Moisture yields the id
soil-moisture. -/
theorem variable_id_matches_claim_witness :
    (extract_metadata_for_variable
        { name := "sm_raw", long_name := some "Soil Moisture",
          standard_name := none, vdescription := none,
          gcmd_keyword_url := none }).variable_id = some "soil-moisture" := by
  have h := variable_id_matches_claim
      { name := "sm_raw", long_name := some "Soil Moisture",
        standard_name := none, vdescription := none, gcmd_keyword_url := none }
      (by decide) (by decide) (by decide)
  rw [h]
  decide

/-- C9: the per-variable metadata dict is keyed by normalized variable id, so
when two data variables derive the same id, the later entry overwrites the
earlier one: the dict holds a single entry carrying the metadata of the second
variable, and the variable-id list is strictly shorter than the list of data
variables. -/
theorem duplicate_variable_ids_overwrite (v1 v2 : XVariable)
    (h : (extract_metadata_for_variable v1).variable_id
        = (extract_metadata_for_variable v2).variable_id) :
    get_variables_metadata [v1, v2]
        = [((extract_metadata_for_variable v2).variable_id,
            extract_metadata_for_variable v2)] ∧
      (get_variable_ids [v1, v2]).length = 1 ∧
      (get_variable_ids [v1, v2]).length < ([v1, v2] : List XVariable).length := by
  have hm : get_variables_metadata [v1, v2]
      = [((extract_metadata_for_variable v2).variable_id,
          extract_metadata_for_variable v2)] := by
    simp [get_variables_metadata, dictInsertVM, h]
  refine ⟨hm, ?_, ?_⟩ <;> simp [get_variable_ids, hm]

/-- C9 witness: two variables sharing the `long_name` Soil Moisture collapse to
one dict entry carrying the description of the second variable. -/
theorem duplicate_variable_ids_overwrite_witness :
    get_variables_metadata
        [{ name := "v1", long_name := some "Soil Moisture",
           standard_name := none, vdescription := some "first",
           gcmd_keyword_url := none },
         { name := "v2", long_name := some "Soil Moisture",
           standard_name := none, vdescription := some "second",
           gcmd_keyword_url := none }]
      = [(some "soil-moisture",
          { variable_id := some "soil-moisture", vdescription := "second",
            gcmd_keyword_url := none })] := by
  have h := duplicate_variable_ids_overwrite
      { name := "v1", long_name := some "Soil Moisture", standard_name := none,
        vdescription := some "first", gcmd_keyword_url := none }
      { name := "v2", long_name := some "Soil Moisture", standard_name := none,
        vdescription := some "second", gcmd_keyword_url := none }
      (by decide)
  rw [h.1]
  decide

/-- Looking up the key just written by `pyUpdate` returns the new value. -/
theorem pyLookup_pyUpdate_self (d : PyDict) (k : String) (v : PVal) :
    pyLookup (pyUpdate d k v) k = some v := by
  induction d with
  | nil => simp [pyUpdate, pyLookup]
  | cons a d ih =>
      obtain ⟨k0, v0⟩ := a
      by_cases h : k0 = k
      · simp [pyUpdate, pyLookup, h]
      · simp [pyUpdate, pyLookup, h, ih]

/-- `pyUpdate` leaves every other key unchanged. -/
theorem pyLookup_pyUpdate_ne (d : PyDict) (k k2 : String) (v : PVal)
    (h : k2 ≠ k) : pyLookup (pyUpdate d k v) k2 = pyLookup d k2 := by
  induction d with
  | nil => simp [pyUpdate, pyLookup, Ne.symm h]
  | cons a d ih =>
      obtain ⟨k0, v0⟩ := a
      by_cases h0 : k0 = k
      · subst h0
        simp [pyUpdate, pyLookup, Ne.symm h]
      · by_cases h2 : k0 = k2 <;> simp [pyUpdate, pyLookup, h0, h2, h, ih]

/-- Appending a single fresh entry does not affect other keys. -/
theorem pyLookup_append_single_ne (d : PyDict) (k k2 : String) (v : PVal)
    (h : k2 ≠ k) : pyLookup (d ++ [(k, v)]) k2 = pyLookup d k2 := by
  induction d with
  | nil => simp [pyLookup, Ne.symm h]
  | cons a d ih =>
      obtain ⟨k0, v0⟩ := a
      by_cases h0 : k0 = k2 <;> simp [pyLookup, h0, ih]

/-- Appending a single entry under a key that was absent makes it visible. -/
theorem pyLookup_append_single_self (d : PyDict) (k : String) (v : PVal)
    (h : pyLookup d k = none) : pyLookup (d ++ [(k, v)]) k = some v := by
  induction d with
  | nil => simp [pyLookup]
  | cons a d ih =>
      obtain ⟨k0, v0⟩ := a
      by_cases h0 : k0 = k
      · rw [show pyLookup ((k0, v0) :: d) k = some v0 from by simp [pyLookup, h0]]
          at h
        exact absurd h (by simp)
      · rw [show pyLookup ((k0, v0) :: d) k = pyLookup d k from by
            simp [pyLookup, h0]] at h
        simp [pyLookup, h0, ih h]

/-- `pySetdefault` leaves every other key unchanged. -/
theorem pyLookup_pySetdefault_ne (d : PyDict) (k k2 : String) (v : PVal)
    (h : k2 ≠ k) : pyLookup (pySetdefault d k v) k2 = pyLookup d k2 := by
  unfold pySetdefault
  cases hl : pyLookup d k with
  | some w => rfl
  | none => exact pyLookup_append_single_ne d k k2 v h

/-- `pySetdefault` inserts the default when the key is absent. -/
theorem pyLookup_pySetdefault_absent (d : PyDict) (k : String) (v : PVal)
    (h : pyLookup d k = none) : pyLookup (pySetdefault d k v) k = some v := by
  unfold pySetdefault
  rw [h]
  exact pyLookup_append_single_self d k v h

/-- `pySetdefault` keeps the existing value when the key is present. -/
theorem pyLookup_pySetdefault_present (d : PyDict) (k : String) (v w : PVal)
    (h : pyLookup d k = some w) : pyLookup (pySetdefault d k v) k = some w := by
  unfold pySetdefault
  rw [h]
  exact h

/-- C10 counterexample: a properties mapping without a `type` entry gains one
with the default value workflow, so keys other than `created`, `updated`,
`contacts` and `themes` are changed by `build_record_properties`, contrary to
the frame stated by the claim. -/
theorem build_record_properties_adds_default_keys :
    pyLookup [("title", PVal.str "Test")] "type" = none ∧
      pyLookup
          (build_record_properties [("title", PVal.str "Test")] []
            "2025-01-01T00:00:00+00:00") "type"
        = some (PVal.str "workflow") := by
  exact ⟨by decide, by decide⟩

/-- C10 (amended): `build_record_properties` mutates the properties mapping
passed by the caller: it writes `created` and `updated` with the same instant,
writes `contacts` with the parsed contact objects, replaces `themes` by a
single-element list holding one Theme object when theme tags were present
(leaving it untouched otherwise), inserts `type` and `osc_project` with their
defaults when those keys are absent (keeping existing values), and changes no
other key. -/
theorem build_record_properties_effect (d : PyDict) (cs : List ContactDict)
    (now : String) :
    pyLookup (build_record_properties d cs now) "created"
        = some (PVal.str now) ∧
      pyLookup (build_record_properties d cs now) "updated"
        = some (PVal.str now) ∧
      pyLookup (build_record_properties d cs now) "contacts"
        = some (PVal.contactObjs (build_contact_objects cs)) ∧
      (theme_tags d ≠ [] →
        pyLookup (build_record_properties d cs now) "themes"
          = some (PVal.themeObjs [build_theme (theme_tags d)])) ∧
      (theme_tags d = [] →
        pyLookup (build_record_properties d cs now) "themes"
          = pyLookup d "themes") ∧
      (pyLookup d "type" = none →
        pyLookup (build_record_properties d cs now) "type"
          = some (PVal.str "workflow")) ∧
      (∀ w, pyLookup d "type" = some w →
        pyLookup (build_record_properties d cs now) "type" = some w) ∧
      (pyLookup d "osc_project" = none →
        pyLookup (build_record_properties d cs now) "osc_project"
          = some (PVal.str "deep-earth-system-data-lab")) ∧
      (∀ w, pyLookup d "osc_project" = some w →
        pyLookup (build_record_properties d cs now) "osc_project" = some w) ∧
      (∀ k, k ≠ "created" → k ≠ "updated" → k ≠ "contacts" → k ≠ "themes" →
        k ≠ "type" → k ≠ "osc_project" →
        pyLookup (build_record_properties d cs now) k = pyLookup d k) := by
  have hTT : theme_tags
      (pyUpdate (pyUpdate d "created" (PVal.str now)) "updated" (PVal.str now))
      = theme_tags d := by
    unfold theme_tags
    rw [pyLookup_pyUpdate_ne (pyUpdate d "created" (PVal.str now)) "updated"
        "themes" (PVal.str now) (by decide),
      pyLookup_pyUpdate_ne d "created" "themes" (PVal.str now) (by decide)]
  have hmain : build_record_properties d cs now
      = pySetdefault
          (pySetdefault
            (if (theme_tags d).isEmpty then
              pyUpdate
                (pyUpdate (pyUpdate d "created" (PVal.str now)) "updated"
                  (PVal.str now))
                "contacts" (PVal.contactObjs (build_contact_objects cs))
            else
              pyUpdate
                (pyUpdate
                  (pyUpdate (pyUpdate d "created" (PVal.str now)) "updated"
                    (PVal.str now))
                  "contacts" (PVal.contactObjs (build_contact_objects cs)))
                "themes" (PVal.themeObjs [build_theme (theme_tags d)]))
            "type" (PVal.str "workflow"))
          "osc_project" (PVal.str "deep-earth-system-data-lab") := by
    simp only [build_record_properties]
    rw [hTT]
  have hC0 : ∀ k2, k2 ≠ "contacts" → k2 ≠ "updated" → k2 ≠ "created" →
      pyLookup
        (pyUpdate
          (pyUpdate (pyUpdate d "created" (PVal.str now)) "updated"
            (PVal.str now))
          "contacts" (PVal.contactObjs (build_contact_objects cs))) k2
      = pyLookup d k2 := by
    intro k2 h1 h2 h3
    rw [pyLookup_pyUpdate_ne _ "contacts" k2 _ h1,
      pyLookup_pyUpdate_ne _ "updated" k2 _ h2,
      pyLookup_pyUpdate_ne _ "created" k2 _ h3]
  have hD : ∀ k2, k2 ≠ "themes" → k2 ≠ "contacts" → k2 ≠ "updated" →
      k2 ≠ "created" →
      pyLookup
        (if (theme_tags d).isEmpty then
          pyUpdate
            (pyUpdate (pyUpdate d "created" (PVal.str now)) "updated"
              (PVal.str now))
            "contacts" (PVal.contactObjs (build_contact_objects cs))
        else
          pyUpdate
            (pyUpdate
              (pyUpdate (pyUpdate d "created" (PVal.str now)) "updated"
                (PVal.str now))
              "contacts" (PVal.contactObjs (build_contact_objects cs)))
            "themes" (PVal.themeObjs [build_theme (theme_tags d)])) k2
      = pyLookup d k2 := by
    intro k2 h0 h1 h2 h3
    by_cases hemp : (theme_tags d).isEmpty = true
    · rw [if_pos hemp, hC0 k2 h1 h2 h3]
    · rw [if_neg hemp, pyLookup_pyUpdate_ne _ "themes" k2 _ h0,
        hC0 k2 h1 h2 h3]
  refine ⟨?_, ?_, ?_, ?_, ?_, ?_, ?_, ?_, ?_, ?_⟩
  · rw [hmain, pyLookup_pySetdefault_ne _ "osc_project" "created" _ (by decide),
      pyLookup_pySetdefault_ne _ "type" "created" _ (by decide)]
    by_cases hemp : (theme_tags d).isEmpty = true
    · rw [if_pos hemp,
        pyLookup_pyUpdate_ne _ "contacts" "created" _ (by decide),
        pyLookup_pyUpdate_ne _ "updated" "created" _ (by decide),
        pyLookup_pyUpdate_self _ "created" _]
    · rw [if_neg hemp,
        pyLookup_pyUpdate_ne _ "themes" "created" _ (by decide),
        pyLookup_pyUpdate_ne _ "contacts" "created" _ (by decide),
        pyLookup_pyUpdate_ne _ "updated" "created" _ (by decide),
        pyLookup_pyUpdate_self _ "created" _]
  · rw [hmain, pyLookup_pySetdefault_ne _ "osc_project" "updated" _ (by decide),
      pyLookup_pySetdefault_ne _ "type" "updated" _ (by decide)]
    by_cases hemp : (theme_tags d).isEmpty = true
    · rw [if_pos hemp,
        pyLookup_pyUpdate_ne _ "contacts" "updated" _ (by decide),
        pyLookup_pyUpdate_self _ "updated" _]
    · rw [if_neg hemp,
        pyLookup_pyUpdate_ne _ "themes" "updated" _ (by decide),
        pyLookup_pyUpdate_ne _ "contacts" "updated" _ (by decide),
        pyLookup_pyUpdate_self _ "updated" _]
  · rw [hmain, pyLookup_pySetdefault_ne _ "osc_project" "contacts" _ (by decide),
      pyLookup_pySetdefault_ne _ "type" "contacts" _ (by decide)]
    by_cases hemp : (theme_tags d).isEmpty = true
    · rw [if_pos hemp, pyLookup_pyUpdate_self _ "contacts" _]
    · rw [if_neg hemp,
        pyLookup_pyUpdate_ne _ "themes" "contacts" _ (by decide),
        pyLookup_pyUpdate_self _ "contacts" _]
  · intro h
    have hemp : ¬((theme_tags d).isEmpty = true) := by
      simpa [List.isEmpty_iff] using h
    rw [hmain, pyLookup_pySetdefault_ne _ "osc_project" "themes" _ (by decide),
      pyLookup_pySetdefault_ne _ "type" "themes" _ (by decide), if_neg hemp,
      pyLookup_pyUpdate_self _ "themes" _]
  · intro h
    have hemp : (theme_tags d).isEmpty = true := by
      simp [List.isEmpty_iff, h]
    rw [hmain, pyLookup_pySetdefault_ne _ "osc_project" "themes" _ (by decide),
      pyLookup_pySetdefault_ne _ "type" "themes" _ (by decide), if_pos hemp,
      hC0 "themes" (by decide) (by decide) (by decide)]
  · intro h
    have habs : pyLookup
        (pySetdefault
          (if (theme_tags d).isEmpty then
            pyUpdate
              (pyUpdate (pyUpdate d "created" (PVal.str now)) "updated"
                (PVal.str now))
              "contacts" (PVal.contactObjs (build_contact_objects cs))
          else
            pyUpdate
              (pyUpdate
                (pyUpdate (pyUpdate d "created" (PVal.str now)) "updated"
                  (PVal.str now))
                "contacts" (PVal.contactObjs (build_contact_objects cs)))
              "themes" (PVal.themeObjs [build_theme (theme_tags d)]))
          "type" (PVal.str "workflow")) "type" = some (PVal.str "workflow") := by
      apply pyLookup_pySetdefault_absent
      rw [hD "type" (by decide) (by decide) (by decide) (by decide)]
      exact h
    rw [hmain, pyLookup_pySetdefault_ne _ "osc_project" "type" _ (by decide),
      habs]
  · intro w h
    have hpres : pyLookup
        (if (theme_tags d).isEmpty then
          pyUpdate
            (pyUpdate (pyUpdate d "created" (PVal.str now)) "updated"
              (PVal.str now))
            "contacts" (PVal.contactObjs (build_contact_objects cs))
        else
          pyUpdate
            (pyUpdate
              (pyUpdate (pyUpdate d "created" (PVal.str now)) "updated"
                (PVal.str now))
              "contacts" (PVal.contactObjs (build_contact_objects cs)))
            "themes" (PVal.themeObjs [build_theme (theme_tags d)])) "type"
        = some w := by
      rw [hD "type" (by decide) (by decide) (by decide) (by decide)]
      exact h
    rw [hmain, pyLookup_pySetdefault_ne _ "osc_project" "type" _ (by decide),
      pyLookup_pySetdefault_present _ "type" _ w hpres]
  · intro h
    rw [hmain]
    apply pyLookup_pySetdefault_absent
    rw [pyLookup_pySetdefault_ne _ "type" "osc_project" _ (by decide),
      hD "osc_project" (by decide) (by decide) (by decide) (by decide)]
    exact h
  · intro w h
    rw [hmain]
    apply pyLookup_pySetdefault_present
    rw [pyLookup_pySetdefault_ne _ "type" "osc_project" _ (by decide),
      hD "osc_project" (by decide) (by decide) (by decide) (by decide)]
    exact h
  · intro k h1 h2 h3 h4 h5 h6
    rw [hmain, pyLookup_pySetdefault_ne _ "osc_project" k _ h6,
      pyLookup_pySetdefault_ne _ "type" k _ h5, hD k h4 h3 h2 h1]

/-- C10 witness: on a mapping holding a title and the theme tag climate, with
one contact and no `type` key, the call wraps the tags into one Theme object
and inserts the default `type` entry. -/
theorem build_record_properties_effect_witness :
    pyLookup
        (build_record_properties
          [("title", PVal.str "Test"), ("themes", PVal.tags ["climate"])]
          [{ payload := "alice" }] "2025-01-01T00:00:00+00:00") "themes"
      = some (PVal.themeObjs [build_theme ["climate"]]) ∧
      pyLookup
        (build_record_properties
          [("title", PVal.str "Test"), ("themes", PVal.tags ["climate"])]
          [{ payload := "alice" }] "2025-01-01T00:00:00+00:00") "type"
      = some (PVal.str "workflow") := by
  have h := build_record_properties_effect
      [("title", PVal.str "Test"), ("themes", PVal.tags ["climate"])]
      [{ payload := "alice" }] "2025-01-01T00:00:00+00:00"
  refine ⟨?_, h.2.2.2.2.2.1 (by decide)⟩
  have ht := h.2.2.2.1 (by decide)
  rw [ht]
  decide

end DeepCode
